import Mathlib

/-!
Verification of the Valentine greeting-card modules against their
natural-language specification.  The definitions below are a shallow
embedding of the three source modules:

* namespace `Hearts`      — src/hearts.ts (floating-heart emitter, bursts)
* namespace `Runaway`     — src/runaway-button.ts (runaway No button, counter)
* namespace `Celebration` — celebration module (screen transition sequencer)

Randomness (Math.random, which yields a value in [0,1)) is modelled by
explicit rational/real draws passed as parameters; the DOM is modelled by
explicit state records; timers are modelled as explicit (delay, action)
data applied by step functions.
-/

namespace Dom

/-- Model of classList.add: a class token is appended unless already present
(classList is a set of tokens). -/
def addClass (classes : List String) (c : String) : List String :=
  if c ∈ classes then classes else classes ++ [c]

/-- Model of classList.remove: every occurrence of the token is removed. -/
def removeClass (classes : List String) (c : String) : List String :=
  classes.filter (fun d => d ≠ c)

end Dom

namespace Hearts

/-- Fixed glyph palette for background hearts (HEART_EMOJIS). -/
def HEART_EMOJIS : List String :=
  ["💖", "💕", "💗", "💓", "💝", "💘", "❤️", "🩷", "💞", "✨", "🌸"]

/-- Glyph palette for celebration bursts (CELEBRATION_HEARTS). -/
def CELEBRATION_HEARTS : List String :=
  ["💖", "💕", "💗", "💓", "💝", "💘", "❤️", "🎉", "✨", "🥰", "💞", "🩷"]

/-- Configuration record for floating background hearts (FloatingHeartConfig). -/
structure FloatingHeartConfig where
  minDuration : ℚ
  maxDuration : ℚ
  minSize : ℚ
  maxSize : ℚ
  spawnInterval : ℚ
  maxHearts : ℕ
deriving Repr, DecidableEq

/-- Default configuration DEFAULT_CONFIG from hearts.ts. -/
def DEFAULT_CONFIG : FloatingHeartConfig :=
  { minDuration := 8
    maxDuration := 18
    minSize := 0.8
    maxSize := 2.5
    spawnInterval := 600
    maxHearts := 25 }

/-- Model of randomInRange: Math.random() * (max - min) + min, with the
Math.random draw r made explicit as the first argument. -/
def randomInRange (r lo hi : ℚ) : ℚ :=
  r * (hi - lo) + lo

/-- Random draws consumed by one createFloatingHeart call, each in [0,1). -/
structure HeartRands where
  rEmoji : ℚ
  rSize : ℚ
  rDuration : ℚ
  rLeft : ℚ
  rDelay : ℚ
deriving Repr, DecidableEq

/-- A floating heart element: the attributes createFloatingHeart sets on the
span before appending it to the container. -/
structure FloatingHeart where
  emoji : String
  fontSize : ℚ
  left : ℚ
  animationDuration : ℚ
  animationDelay : ℚ
deriving Repr, DecidableEq

/-- Heart element built by createFloatingHeart from its random draws. -/
def mkFloatingHeart (rnd : HeartRands) (config : FloatingHeartConfig) : FloatingHeart :=
  { emoji := HEART_EMOJIS.getD (Int.toNat ⌊rnd.rEmoji * (HEART_EMOJIS.length : ℚ)⌋) ""
    fontSize := randomInRange rnd.rSize config.minSize config.maxSize
    animationDuration := randomInRange rnd.rDuration config.minDuration config.maxDuration
    left := randomInRange rnd.rLeft 0 100
    animationDelay := randomInRange rnd.rDelay 0 3 }

/-- Model of createFloatingHeart(container, config) acting on the container
children: when container.children.length >= config.maxHearts the call returns
without creating anything; otherwise the new heart is appended.  (The removal
timeout it schedules is modelled as a separate EmitterEvent.removalTick.) -/
def createFloatingHeart (config : FloatingHeartConfig) (rnd : HeartRands)
    (children : List FloatingHeart) : List FloatingHeart :=
  if children.length ≥ config.maxHearts then
    children
  else
    children ++ [mkFloatingHeart rnd config]

/-- Events that mutate the container children: a spawn request (from the
initial staggered batch or the recurring interval) and the firing of a heart
removal timeout. -/
inductive EmitterEvent where
  | spawnTick (rnd : HeartRands)
  | removalTick (h : FloatingHeart)
deriving Repr, DecidableEq

/-- One event step on the container children.  A removal timeout removes its
heart only when it is still a child of the container (the
heart.parentNode === container guard before removeChild). -/
def emitterStep (config : FloatingHeartConfig)
    (children : List FloatingHeart) : EmitterEvent → List FloatingHeart
  | .spawnTick rnd => createFloatingHeart config rnd children
  | .removalTick h => if h ∈ children then children.erase h else children

/-- Running the emitter from an initially empty container over a sequence of
events. -/
def runEmitter (config : FloatingHeartConfig) (events : List EmitterEvent) :
    List FloatingHeart :=
  events.foldl (emitterStep config) []

/-- State of the hearts module at entry-point granularity: the module-level
heartIntervalId, the interval timers currently registered with the
environment, the delays of scheduled initial-batch spawn timeouts, the
container children, and the error log. -/
structure EmitterState where
  heartIntervalId : Option ℕ
  activeIntervals : List ℕ
  scheduledSpawns : List ℚ
  children : List FloatingHeart
  errorLog : List String
  nextTimerId : ℕ
deriving Repr, DecidableEq

/-- Error message logged by startFloatingHearts when the container element is
missing. -/
def containerNotFoundMsg (containerId : String) : String :=
  "[Hearts] Container element #" ++ containerId ++ " not found"

/-- Model of startFloatingHearts(containerId, config): when the container id
is absent from the document, log one error and return; otherwise schedule the
initial batch of 8 spawn timeouts at 300 ms stagger and register a new
recurring interval, storing its handle in heartIntervalId (any previous
handle is overwritten without being cleared, as in the source). -/
def startFloatingHearts (containerId : String) (doc : List String)
    (s : EmitterState) : EmitterState :=
  if containerId ∈ doc then
    { s with
      scheduledSpawns := s.scheduledSpawns ++ (List.range 8).map (fun i => (i : ℚ) * 300)
      heartIntervalId := some s.nextTimerId
      activeIntervals := s.activeIntervals ++ [s.nextTimerId]
      nextTimerId := s.nextTimerId + 1 }
  else
    { s with errorLog := s.errorLog ++ [containerNotFoundMsg containerId] }

/-- Model of stopFloatingHearts: when heartIntervalId is non-null the interval
is cleared and the handle reset to null; otherwise nothing happens.  Spawned
hearts are not touched. -/
def stopFloatingHearts (s : EmitterState) : EmitterState :=
  match s.heartIntervalId with
  | none => s
  | some tid =>
    { s with
      heartIntervalId := none
      activeIntervals := s.activeIntervals.filter (fun x => x ≠ tid) }

/-- Real-valued version of randomInRange, used by the burst model where the
angle involves pi. -/
noncomputable def randomInRangeR (r lo hi : ℝ) : ℝ :=
  r * (hi - lo) + lo

/-- Random draws consumed by one burst-heart creation, each in [0,1). -/
structure BurstRands where
  rEmoji : ℝ
  rAngle : ℝ
  rDistance : ℝ
  rFontSize : ℝ

/-- A burst heart element: the attributes the scheduled callback sets before
appending the span to document.body, together with its fixed removal delay. -/
structure BurstHeart where
  emoji : String
  left : ℝ
  top : ℝ
  tx : ℝ
  ty : ℝ
  fontSize : ℝ
  removalDelay : ℝ

/-- Burst heart built by one scheduled callback of createHeartBurst: placed at
the burst center, with displacement vector cos(angle)*distance,
sin(angle)*distance for angle = randomInRange(0, 2*pi) and distance =
randomInRange(100, 400), and a removal timeout of 3000 ms. -/
noncomputable def mkBurstHeart (rnd : BurstRands) (centerX centerY : ℝ) : BurstHeart :=
  let angle := randomInRangeR rnd.rAngle 0 (Real.pi * 2)
  let distance := randomInRangeR rnd.rDistance 100 400
  { emoji := CELEBRATION_HEARTS.getD (Int.toNat ⌊rnd.rEmoji * (CELEBRATION_HEARTS.length : ℝ)⌋) ""
    left := centerX
    top := centerY
    tx := Real.cos angle * distance
    ty := Real.sin angle * distance
    fontSize := randomInRangeR rnd.rFontSize 1 3
    removalDelay := 3000 }

/-- Model of createHeartBurst(centerX, centerY, count): one scheduled event
per index i in [0, count), at delay i * 50 ms.  The body of each event is
wrapped in its own try/catch; fails i models whether the creation of heart i
throws, in which case that event produces no heart and the error is absorbed
without affecting the other events. -/
noncomputable def createHeartBurst (rands : ℕ → BurstRands) (fails : ℕ → Bool)
    (centerX centerY : ℝ) (count : ℕ) : List (ℝ × Option BurstHeart) :=
  (List.range count).map fun (i : ℕ) =>
    ((i : ℝ) * 50, if fails i then none else some (mkBurstHeart (rands i) centerX centerY))

/-- Model of createHeartBurst with the default count argument of 30. -/
noncomputable def createHeartBurstDefault (rands : ℕ → BurstRands) (fails : ℕ → Bool)
    (centerX centerY : ℝ) : List (ℝ × Option BurstHeart) :=
  createHeartBurst rands fails centerX centerY 30

/-- Sample concrete burst draws, all equal to one half. -/
noncomputable def sampleBurstRands : BurstRands :=
  { rEmoji := 1/2, rAngle := 1/2, rDistance := 1/2, rFontSize := 1/2 }

/-- Sample concrete emitter state: fresh module, empty container and log. -/
def sampleEmitterState : EmitterState :=
  { heartIntervalId := none, activeIntervals := [], scheduledSpawns := [],
    children := [], errorLog := [], nextTimerId := 0 }

end Hearts

namespace Runaway

/-- Configuration record for the runaway behavior (RunawayConfig). -/
structure RunawayConfig where
  minJumpDistance : ℚ
  maxJumpDistance : ℚ
  edgePadding : ℚ
  escapeMessages : List String
deriving Repr, DecidableEq

/-- Default configuration DEFAULT_RUNAWAY_CONFIG from runaway-button.ts, with
its fixed list of ten escalating messages. -/
def DEFAULT_RUNAWAY_CONFIG : RunawayConfig :=
  { minJumpDistance := 100
    maxJumpDistance := 300
    edgePadding := 20
    escapeMessages :=
      ["Ні 💔",
       "Ти впевнена? 🥺",
       "Серйозно?? 😢",
       "Подумай ще раз! 😭",
       "Ну будь ласка! 💕",
       "Не роби так! 🥹",
       "Мені буде сумно... 😿",
       "Ну прошуууу! 🙏",
       "Останній шанс! 💝",
       "Тобі мене не зловити! 😜"] }

/-- Model of randomBetween: Math.random() * (max - min) + min, with the
Math.random draw r made explicit as the first argument. -/
def randomBetween (r lo hi : ℚ) : ℚ :=
  r * (hi - lo) + lo

/-- Model of getRandomSafePosition(buttonWidth, buttonHeight, config).  The
window.innerWidth/innerHeight globals and the two Math.random draws are
passed explicitly. -/
def getRandomSafePosition (rx ry : ℚ) (innerWidth innerHeight : ℚ)
    (buttonWidth buttonHeight : ℚ) (config : RunawayConfig) : ℚ × ℚ :=
  let maxX := innerWidth - buttonWidth - config.edgePadding
  let maxY := innerHeight - buttonHeight - config.edgePadding
  let x := max config.edgePadding (min (randomBetween rx config.edgePadding maxX) maxX)
  let y := max config.edgePadding (min (randomBetween ry config.edgePadding maxY) maxY)
  (x, y)

/-- Module-level mutable state of runaway-button.ts: escapeCount and
isRunaway. -/
structure ModuleState where
  escapeCount : ℕ
  isRunaway : Bool
deriving Repr, DecidableEq

/-- Observable state of a button element: its class tokens, displayed text
and inline position styles. -/
structure ButtonState where
  classes : List String
  textContent : String
  styleLeft : ℚ
  styleTop : ℚ
  styleTransition : String
deriving Repr, DecidableEq

/-- Environment read by one escape: the two Math.random draws, the viewport
size and the bounding rect of the No button. -/
structure EscapeEnv where
  rx : ℚ
  ry : ℚ
  innerWidth : ℚ
  innerHeight : ℚ
  rectWidth : ℚ
  rectHeight : ℚ
deriving Repr, DecidableEq

/-- Model of escapeFromCursor(button, config): on first escape set the
runaway flag and add the runaway class; move the button to a random safe
position; show the message at index min(escapeCount, messages.length - 1);
then increment escapeCount. -/
def escapeFromCursor (env : EscapeEnv) (config : RunawayConfig)
    (st : ModuleState) (button : ButtonState) : ModuleState × ButtonState :=
  let st1 : ModuleState := if st.isRunaway then st else { st with isRunaway := true }
  let button1 : ButtonState :=
    if st.isRunaway then button
    else { button with classes := Dom.addClass button.classes "runaway" }
  let pos := getRandomSafePosition env.rx env.ry env.innerWidth env.innerHeight
    env.rectWidth env.rectHeight config
  let messageIndex := min st1.escapeCount (config.escapeMessages.length - 1)
  let button2 : ButtonState :=
    { button1 with
      styleLeft := pos.1
      styleTop := pos.2
      styleTransition := "left 0.2s ease-out, top 0.2s ease-out"
      textContent := config.escapeMessages.getD messageIndex "" }
  ({ st1 with escapeCount := st1.escapeCount + 1 }, button2)

/-- The four growth tier markers the source removes before applying the
current one. -/
def growthMarkers : List String :=
  ["growing-1", "growing-2", "growing-3", "growing-4"]

/-- Growth level computed by growYesButton from the module state:
min(floor(escapeCount / 2), 4), with natural-number division as floor. -/
def growthLevelOf (st : ModuleState) : ℕ :=
  min (st.escapeCount / 2) 4

/-- Model of growYesButton(yesButton): compute the growth level, remove all
four growth classes, then add the class for the current level when it is
positive. -/
def growYesButton (st : ModuleState) (yesButton : ButtonState) : ButtonState :=
  { yesButton with
    classes :=
      if growthLevelOf st > 0 then
        Dom.addClass (growthMarkers.foldl Dom.removeClass yesButton.classes)
          ("growing-" ++ toString (growthLevelOf st))
      else
        growthMarkers.foldl Dom.removeClass yesButton.classes }

/-- The two button elements an initialized instance manages. -/
structure ButtonsState where
  noButton : ButtonState
  yesButton : ButtonState
deriving Repr, DecidableEq

/-- Model of the handleEscape listener: escapeFromCursor on the No button
followed by growYesButton on the Yes button. -/
def handleEscape (env : EscapeEnv) (config : RunawayConfig)
    (st : ModuleState) (buttons : ButtonsState) : ModuleState × ButtonsState :=
  let r := escapeFromCursor env config st buttons.noButton
  let yes1 := growYesButton r.1 buttons.yesButton
  (r.1, { noButton := r.2, yesButton := yes1 })

/-- Model of the cleanup closure returned by initRunawayButton: it resets the
module-level escapeCount to 0 and isRunaway to false (listener removal is
modelled at the initialization layer). -/
def cleanup (st : ModuleState) : ModuleState :=
  { st with escapeCount := 0, isRunaway := false }

/-- Model of getEscapeCount: read the module-level counter. -/
def getEscapeCount (st : ModuleState) : ℕ :=
  st.escapeCount

/-- Events on the runaway module: a qualifying interaction firing the escape
routine, or a call of the cleanup function. -/
inductive RunawayEvent where
  | escapeFired (env : EscapeEnv)
  | cleanupCalled
deriving Repr, DecidableEq

/-- One event step on the module state and the managed buttons. -/
def runawayStep (config : RunawayConfig) (s : ModuleState × ButtonsState) :
    RunawayEvent → ModuleState × ButtonsState
  | .escapeFired env => handleEscape env config s.1 s.2
  | .cleanupCalled => (cleanup s.1, s.2)

/-- Whether initRunawayButton returned the real state-resetting cleanup
closure or the no-op closure of an aborted initialization. -/
inductive CleanupKind where
  | noop
  | resetting
deriving Repr, DecidableEq

/-- Semantics of a returned cleanup function on the module state. -/
def runCleanupKind : CleanupKind → ModuleState → ModuleState
  | .noop, st => st
  | .resetting, st => cleanup st

/-- Error message logged when the No button element is missing. -/
def noButtonNotFoundMsg (noButtonId : String) : String :=
  "[RunawayButton] No button element #" ++ noButtonId ++ " not found"

/-- Error message logged when the Yes button element is missing. -/
def yesButtonNotFoundMsg (yesButtonId : String) : String :=
  "[RunawayButton] Yes button element #" ++ yesButtonId ++ " not found"

/-- Result of initRunawayButton: the returned cleanup function, the error
messages logged by the call, and the listeners registered on the No
button. -/
structure InitResult where
  cleanupFn : CleanupKind
  errorLog : List String
  listenersRegistered : List String
deriving Repr, DecidableEq

/-- Model of initRunawayButton(noButtonId, yesButtonId, config): look up the
two elements; if either is missing, log one error and return a no-op cleanup
function; otherwise register the mouseenter, touchstart and click listeners
and return the resetting cleanup function. -/
def initRunawayButton (noButtonId yesButtonId : String) (doc : List String) :
    InitResult :=
  if noButtonId ∉ doc then
    { cleanupFn := .noop
      errorLog := [noButtonNotFoundMsg noButtonId]
      listenersRegistered := [] }
  else if yesButtonId ∉ doc then
    { cleanupFn := .noop
      errorLog := [yesButtonNotFoundMsg yesButtonId]
      listenersRegistered := [] }
  else
    { cleanupFn := .resetting
      errorLog := []
      listenersRegistered := ["mouseenter", "touchstart", "click"] }

/-- Sample concrete escape environment: an 800 by 600 viewport, a 100 by 40
button and both random draws equal to one half. -/
def sampleEnv : EscapeEnv :=
  { rx := 1/2, ry := 1/2, innerWidth := 800, innerHeight := 600,
    rectWidth := 100, rectHeight := 40 }

/-- Sample concrete button state with no classes and empty text. -/
def sampleButton : ButtonState :=
  { classes := [], textContent := "", styleLeft := 0, styleTop := 0,
    styleTransition := "" }

/-- Sample concrete pair of managed buttons. -/
def sampleButtons : ButtonsState :=
  { noButton := sampleButton, yesButton := sampleButton }

/-- Global world when several button pairs have been initialized: the single
module-level state shared by every instance, and the per-instance button
elements. -/
structure World (ι : Type) where
  modState : ModuleState
  buttons : ι → ButtonsState

/-- Global events: an escape triggered through the listeners of instance i,
or a call of the cleanup function returned for instance i. -/
inductive GlobalEvent (ι : Type) where
  | escapeVia (i : ι) (env : EscapeEnv)
  | cleanupVia (i : ι)

/-- One global step: every instance reads and writes the one module-level
state; only the buttons of the triggering instance change. -/
def globalStep {ι : Type} [DecidableEq ι] (config : ι → RunawayConfig)
    (w : World ι) : GlobalEvent ι → World ι
  | .escapeVia i env =>
    let r := handleEscape env (config i) w.modState (w.buttons i)
    { modState := r.1
      buttons := fun j => if j = i then r.2 else w.buttons j }
  | .cleanupVia _ => { w with modState := cleanup w.modState }

end Runaway

namespace Celebration

/-- Observable state of a screen element: its class tokens. -/
structure Screen where
  classes : List String
deriving Repr, DecidableEq

/-- Actions performed by the delayed phase of showCelebration, in program
order. -/
inductive CelebAction where
  | activateCelebration
  | burst (x y : ℚ) (count : ℕ)
  | startLoop (intervalMs : ℚ)
  | invokeCallback
deriving Repr, DecidableEq

/-- World visible to the celebration module: the two screen elements (none
when the id is absent from the document) and the error log. -/
structure CelebrationWorld where
  questionScreen : Option Screen
  celebrationScreen : Option Screen
  errorLog : List String
deriving Repr, DecidableEq

/-- Error message logged when the question screen element is missing. -/
def questionNotFoundMsg (questionScreenId : String) : String :=
  "[Celebration] Question screen #" ++ questionScreenId ++ " not found"

/-- Error message logged when the celebration screen element is missing. -/
def celebrationNotFoundMsg (celebrationScreenId : String) : String :=
  "[Celebration] Celebration screen #" ++ celebrationScreenId ++ " not found"

/-- Model of showCelebration(questionScreenId, celebrationScreenId,
onCelebrate): look up both screens; missing either, log one error and abort
with nothing scheduled.  Otherwise remove the active class from the question
screen immediately and schedule, at 400 ms, the ordered actions: activate the
celebration screen, fire a centered 50-heart burst, start the celebration
loop at 3000 ms cadence, and finally invoke the callback when one was
provided. -/
def showCelebration (innerWidth innerHeight : ℚ) (hasCallback : Bool)
    (questionScreenId celebrationScreenId : String)
    (w : CelebrationWorld) : CelebrationWorld × Option (ℚ × List CelebAction) :=
  match w.questionScreen, w.celebrationScreen with
  | none, _ =>
    ({ w with errorLog := w.errorLog ++ [questionNotFoundMsg questionScreenId] }, none)
  | some _, none =>
    ({ w with errorLog := w.errorLog ++ [celebrationNotFoundMsg celebrationScreenId] }, none)
  | some q, some _ =>
    ({ w with questionScreen := some { classes := Dom.removeClass q.classes "active" } },
     some (400,
       [CelebAction.activateCelebration,
        CelebAction.burst (innerWidth / 2) (innerHeight / 2) 50,
        CelebAction.startLoop 3000]
       ++ if hasCallback then [CelebAction.invokeCallback] else []))

/-- Accumulated effect of running the delayed phase: the resulting world, the
bursts created, the celebration loops started, and whether the callback has
been invoked. -/
structure DelayedOutcome where
  world : CelebrationWorld
  bursts : List (ℚ × ℚ × ℕ)
  loopsStarted : List ℚ
  callbackInvoked : Bool
deriving Repr, DecidableEq

/-- Effect of one delayed-phase action. -/
def applyCelebAction (o : DelayedOutcome) : CelebAction → DelayedOutcome
  | .activateCelebration =>
    { o with
      world :=
        { o.world with
          celebrationScreen := o.world.celebrationScreen.map
            (fun s => { classes := Dom.addClass s.classes "active" }) } }
  | .burst x y n => { o with bursts := o.bursts ++ [(x, y, n)] }
  | .startLoop i => { o with loopsStarted := o.loopsStarted ++ [i] }
  | .invokeCallback => { o with callbackInvoked := true }

/-- Running the scheduled delayed actions in order on the world left by the
immediate phase. -/
def runDelayed (w : CelebrationWorld) (actions : List CelebAction) : DelayedOutcome :=
  actions.foldl applyCelebAction
    { world := w, bursts := [], loopsStarted := [], callbackInvoked := false }

end Celebration

/-!
Theorems settling the claims, grouped by module.
-/

namespace Hearts

lemma emitterStep_length_le (config : FloatingHeartConfig)
    (children : List FloatingHeart) (e : EmitterEvent)
    (h : children.length ≤ config.maxHearts) :
    (emitterStep config children e).length ≤ config.maxHearts := by
  cases e with
  | spawnTick rnd =>
    simp only [emitterStep, createFloatingHeart]
    split
    · exact h
    · rename_i hlt
      have hlt2 : children.length < config.maxHearts := Nat.lt_of_not_le hlt
      simp only [List.length_append, List.length_singleton]
      omega
  | removalTick hh =>
    simp only [emitterStep]
    split
    · exact le_trans (children.erase_sublist hh).length_le h
    · exact h

lemma foldl_emitterStep_length_le (config : FloatingHeartConfig)
    (events : List EmitterEvent) :
    ∀ children : List FloatingHeart, children.length ≤ config.maxHearts →
      (events.foldl (emitterStep config) children).length ≤ config.maxHearts := by
  induction events with
  | nil => intro children h; simpa using h
  | cons e rest ih =>
    intro children h
    simp only [List.foldl_cons]
    exact ih _ (emitterStep_length_le config children e h)

/-- C1: for every configured maximum heart count, starting from an initially
empty container, the number of live floating hearts never exceeds
config.maxHearts after any sequence of spawn requests and removal-timeout
firings; and a spawn request arriving when the container already holds at
least maxHearts children creates nothing and is dropped. -/
theorem runEmitter_length_le_maxHearts (config : FloatingHeartConfig)
    (events : List EmitterEvent) :
    (runEmitter config events).length ≤ config.maxHearts ∧
    (∀ children : List FloatingHeart, ∀ rnd : HeartRands,
      children.length ≥ config.maxHearts →
        createFloatingHeart config rnd children = children) := by
  constructor
  · exact foldl_emitterStep_length_le config events [] (by simp)
  · intro children rnd hge
    simp [createFloatingHeart, hge]

/-- C9: stopFloatingHearts is idempotent, is a no-op when the emitter was
never started, leaves no recurring spawn timer active, and does not retract
already-spawned hearts. -/
theorem stopFloatingHearts_idempotent (s : EmitterState) :
    stopFloatingHearts (stopFloatingHearts s) = stopFloatingHearts s ∧
    (s.heartIntervalId = none → stopFloatingHearts s = s) ∧
    (stopFloatingHearts s).heartIntervalId = none ∧
    (∀ tid : ℕ, s.heartIntervalId = some tid →
      tid ∉ (stopFloatingHearts s).activeIntervals) ∧
    (stopFloatingHearts s).children = s.children := by
  cases h : s.heartIntervalId with
  | none =>
    refine ⟨?_, ?_, ?_, ?_, ?_⟩ <;> simp [stopFloatingHearts, h]
  | some tid =>
    refine ⟨?_, ?_, ?_, ?_, ?_⟩
    · simp [stopFloatingHearts, h]
    · simp [h]
    · simp [stopFloatingHearts, h]
    · intro tid2 h2
      injection h2 with h3
      subst h3
      simp [stopFloatingHearts, h, List.mem_filter]
    · simp [stopFloatingHearts, h]

/-- Witness for C9 at concrete states: a never-started emitter state is left
unchanged, and after stopping a started emitter its interval is gone. -/
theorem stopFloatingHearts_idempotent_witness :
    stopFloatingHearts
        { heartIntervalId := none, activeIntervals := [], scheduledSpawns := [],
          children := [], errorLog := [], nextTimerId := 0 } =
      { heartIntervalId := none, activeIntervals := [], scheduledSpawns := [],
        children := [], errorLog := [], nextTimerId := 0 } ∧
    (7 : ℕ) ∉ (stopFloatingHearts
        { heartIntervalId := some 7, activeIntervals := [7], scheduledSpawns := [],
          children := [], errorLog := [], nextTimerId := 8 }).activeIntervals :=
  ⟨(stopFloatingHearts_idempotent _).2.1 rfl,
   (stopFloatingHearts_idempotent _).2.2.2.1 7 rfl⟩

end Hearts

namespace Runaway

/-- C2: one event step of the runaway module changes the value read by
getEscapeCount to exactly the old value plus 1 on every qualifying
interaction (escape), and to 0 on a call of the cleanup function; no other
transition exists, so the counter never decreases except via cleanup. -/
theorem getEscapeCount_step (config : RunawayConfig)
    (s : ModuleState × ButtonsState) (e : RunawayEvent) :
    getEscapeCount (runawayStep config s e).1 =
      match e with
      | .escapeFired _ => getEscapeCount s.1 + 1
      | .cleanupCalled => 0 := by
  cases e with
  | escapeFired env =>
    cases h : s.1.isRunaway <;>
      simp [runawayStep, handleEscape, escapeFromCursor, getEscapeCount, h]
  | cleanupCalled =>
    simp [runawayStep, cleanup, getEscapeCount]

end Runaway

namespace Dom

lemma mem_removeClass (x c : String) (cs : List String) :
    x ∈ removeClass cs c ↔ x ∈ cs ∧ x ≠ c := by
  simp [removeClass]

lemma mem_addClass (x c : String) (cs : List String) :
    x ∈ addClass cs c ↔ x ∈ cs ∨ x = c := by
  by_cases h : c ∈ cs
  · simp only [addClass, if_pos h]
    constructor
    · exact fun hx => Or.inl hx
    · rintro (hx | rfl)
      · exact hx
      · exact h
  · simp [addClass, if_neg h]

lemma mem_foldl_removeClass (L : List String) (cs : List String) (x : String) :
    x ∈ L.foldl removeClass cs ↔ x ∈ cs ∧ x ∉ L := by
  induction L generalizing cs with
  | nil => simp
  | cons a L ih =>
    simp only [List.foldl_cons, ih, mem_removeClass, List.mem_cons]
    tauto

end Dom

namespace Runaway

lemma growYesButton_classes_mem (st : ModuleState) (yes : ButtonState) (m : String)
    (hm : m ∈ growthMarkers) :
    m ∈ (growYesButton st yes).classes ↔
      growthLevelOf st ≠ 0 ∧ m = "growing-" ++ toString (growthLevelOf st) := by
  by_cases ht : growthLevelOf st > 0
  · simp only [growYesButton, if_pos ht]
    rw [Dom.mem_addClass, Dom.mem_foldl_removeClass]
    constructor
    · rintro (⟨_, hnot⟩ | rfl)
      · exact absurd hm hnot
      · exact ⟨by omega, rfl⟩
    · rintro ⟨_, rfl⟩
      exact Or.inr rfl
  · simp only [growYesButton, if_neg ht]
    rw [Dom.mem_foldl_removeClass]
    constructor
    · rintro ⟨_, hnot⟩
      exact absurd hm hnot
    · rintro ⟨hne, _⟩
      omega

/-- C3: after every escape event, for every counter value, the Yes button
carries a growth tier marker exactly when min(floor(escapeCount / 2), 4) is
positive, where escapeCount is the counter value at that moment, and the
marker present is exactly the one of that tier: each of the four markers is
in the class list iff the tier is nonzero and it is the marker of that
tier. -/
theorem growthTier_after_escape (env : EscapeEnv) (config : RunawayConfig)
    (st : ModuleState) (buttons : ButtonsState) (m : String)
    (hm : m ∈ growthMarkers) :
    m ∈ (handleEscape env config st buttons).2.yesButton.classes ↔
      min ((handleEscape env config st buttons).1.escapeCount / 2) 4 ≠ 0 ∧
      m = "growing-" ++
        toString (min ((handleEscape env config st buttons).1.escapeCount / 2) 4) := by
  have he : (handleEscape env config st buttons).2.yesButton =
      growYesButton (handleEscape env config st buttons).1 buttons.yesButton := rfl
  rw [he]
  exact growYesButton_classes_mem (handleEscape env config st buttons).1
    buttons.yesButton m hm

/-- Witness for C3 at a concrete input: after an escape with counter 1 the
counter is 2, the tier is 1, and membership of the growing-1 marker is
characterized accordingly. -/
theorem growthTier_after_escape_witness :
    "growing-1" ∈ (handleEscape sampleEnv DEFAULT_RUNAWAY_CONFIG
        { escapeCount := 1, isRunaway := true } sampleButtons).2.yesButton.classes ↔
      min ((handleEscape sampleEnv DEFAULT_RUNAWAY_CONFIG
        { escapeCount := 1, isRunaway := true } sampleButtons).1.escapeCount / 2) 4 ≠ 0 ∧
      "growing-1" = "growing-" ++
        toString (min ((handleEscape sampleEnv DEFAULT_RUNAWAY_CONFIG
          { escapeCount := 1, isRunaway := true } sampleButtons).1.escapeCount / 2) 4) :=
  growthTier_after_escape sampleEnv DEFAULT_RUNAWAY_CONFIG
    { escapeCount := 1, isRunaway := true } sampleButtons "growing-1" (by decide)

/-- C4: on every escape the message displayed on the No button is the one at
index min(escapeCount before increment, length - 1) of the configured message
list, and with the default ten-message list a counter at or beyond 9 shows
the last message. -/
theorem escalatingMessage_after_escape (env : EscapeEnv) (config : RunawayConfig)
    (st : ModuleState) (buttons : ButtonsState) :
    (handleEscape env config st buttons).2.noButton.textContent =
      config.escapeMessages.getD
        (min st.escapeCount (config.escapeMessages.length - 1)) "" ∧
    (9 ≤ st.escapeCount →
      (handleEscape env DEFAULT_RUNAWAY_CONFIG st buttons).2.noButton.textContent =
        "Тобі мене не зловити! 😜") := by
  have key : ∀ cfg : RunawayConfig,
      (handleEscape env cfg st buttons).2.noButton.textContent =
        cfg.escapeMessages.getD (min st.escapeCount (cfg.escapeMessages.length - 1)) "" := by
    intro cfg
    cases h : st.isRunaway <;>
      simp [handleEscape, escapeFromCursor, h]
  refine ⟨key config, fun h9 => ?_⟩
  rw [key DEFAULT_RUNAWAY_CONFIG]
  have hmin : min st.escapeCount (DEFAULT_RUNAWAY_CONFIG.escapeMessages.length - 1) = 9 := by
    have hlen : DEFAULT_RUNAWAY_CONFIG.escapeMessages.length - 1 = 9 := rfl
    rw [hlen]
    exact min_eq_right h9
  rw [hmin]
  rfl

/-- Witness for C4 at a concrete input: with the counter at 12 the escape
shows the last default message. -/
theorem escalatingMessage_witness :
    (handleEscape sampleEnv DEFAULT_RUNAWAY_CONFIG
        { escapeCount := 12, isRunaway := true } sampleButtons).2.noButton.textContent =
      "Тобі мене не зловити! 😜" :=
  (escalatingMessage_after_escape sampleEnv DEFAULT_RUNAWAY_CONFIG
    { escapeCount := 12, isRunaway := true } sampleButtons).2 (by norm_num)

lemma clamp_in_range (r pad hi : ℚ) (hr0 : 0 ≤ r) (hr1 : r < 1) (hlt : pad < hi) :
    pad ≤ max pad (min (randomBetween r pad hi) hi) ∧
    max pad (min (randomBetween r pad hi) hi) ≤ hi := by
  have h1 : 0 < hi - pad := by linarith
  constructor
  · exact le_max_left pad _
  · exact max_le (le_of_lt hlt) (min_le_right _ _)

/-- C5: for every pair of random draws in [0,1) and every viewport strictly
exceeding 2 * edgePadding + element size on each axis, the position computed
by getRandomSafePosition stays within
[edgePadding, viewport - element size - edgePadding] on both axes. -/
theorem getRandomSafePosition_in_bounds
    (rx ry innerWidth innerHeight buttonWidth buttonHeight : ℚ)
    (config : RunawayConfig)
    (hrx0 : 0 ≤ rx) (hrx1 : rx < 1) (hry0 : 0 ≤ ry) (hry1 : ry < 1)
    (hW : 2 * config.edgePadding + buttonWidth < innerWidth)
    (hH : 2 * config.edgePadding + buttonHeight < innerHeight) :
    config.edgePadding ≤
      (getRandomSafePosition rx ry innerWidth innerHeight buttonWidth buttonHeight config).1 ∧
    (getRandomSafePosition rx ry innerWidth innerHeight buttonWidth buttonHeight config).1 ≤
      innerWidth - buttonWidth - config.edgePadding ∧
    config.edgePadding ≤
      (getRandomSafePosition rx ry innerWidth innerHeight buttonWidth buttonHeight config).2 ∧
    (getRandomSafePosition rx ry innerWidth innerHeight buttonWidth buttonHeight config).2 ≤
      innerHeight - buttonHeight - config.edgePadding := by
  have hx : (getRandomSafePosition rx ry innerWidth innerHeight buttonWidth buttonHeight config).1 =
      max config.edgePadding
        (min (randomBetween rx config.edgePadding (innerWidth - buttonWidth - config.edgePadding))
          (innerWidth - buttonWidth - config.edgePadding)) := rfl
  have hy : (getRandomSafePosition rx ry innerWidth innerHeight buttonWidth buttonHeight config).2 =
      max config.edgePadding
        (min (randomBetween ry config.edgePadding (innerHeight - buttonHeight - config.edgePadding))
          (innerHeight - buttonHeight - config.edgePadding)) := rfl
  have hxb := clamp_in_range rx config.edgePadding
    (innerWidth - buttonWidth - config.edgePadding) hrx0 hrx1 (by linarith)
  have hyb := clamp_in_range ry config.edgePadding
    (innerHeight - buttonHeight - config.edgePadding) hry0 hry1 (by linarith)
  rw [hx, hy]
  exact ⟨hxb.1, hxb.2, hyb.1, hyb.2⟩

/-- Witness for C5, the scenario of the specification: viewport 800 by 600,
element 100 by 40, edge padding 20, both draws one half: the computed
position lies in [20, 680] by [20, 540]. -/
theorem getRandomSafePosition_witness :
    (20 : ℚ) ≤ (getRandomSafePosition (1/2) (1/2) 800 600 100 40 DEFAULT_RUNAWAY_CONFIG).1 ∧
    (getRandomSafePosition (1/2) (1/2) 800 600 100 40 DEFAULT_RUNAWAY_CONFIG).1 ≤ 680 ∧
    (20 : ℚ) ≤ (getRandomSafePosition (1/2) (1/2) 800 600 100 40 DEFAULT_RUNAWAY_CONFIG).2 ∧
    (getRandomSafePosition (1/2) (1/2) 800 600 100 40 DEFAULT_RUNAWAY_CONFIG).2 ≤ 540 := by
  have h := getRandomSafePosition_in_bounds (1/2) (1/2) 800 600 100 40 DEFAULT_RUNAWAY_CONFIG
    (by norm_num) (by norm_num) (by norm_num) (by norm_num)
    (by norm_num [DEFAULT_RUNAWAY_CONFIG]) (by norm_num [DEFAULT_RUNAWAY_CONFIG])
  have e1 : DEFAULT_RUNAWAY_CONFIG.edgePadding = (20 : ℚ) := rfl
  obtain ⟨h1, h2, h3, h4⟩ := h
  rw [e1] at h1 h2 h3 h4
  exact ⟨h1, by linarith, h3, by linarith⟩

/-- C10: every initialized instance shares the one module-level state: an
escape through any instance increments the counter read by getEscapeCount by
1 and gives the same counter value whichever instance triggered it, and the
cleanup function of any instance resets the shared counter to 0 and the flag
to false, identically for every instance. -/
theorem sharedCounter_across_instances {ι : Type} [DecidableEq ι]
    (config : ι → RunawayConfig) (w : World ι) (i j : ι) (env : EscapeEnv) :
    getEscapeCount (globalStep config w (.escapeVia i env)).modState =
      getEscapeCount w.modState + 1 ∧
    getEscapeCount (globalStep config w (.escapeVia i env)).modState =
      getEscapeCount (globalStep config w (.escapeVia j env)).modState ∧
    (globalStep config w (.cleanupVia i)).modState.escapeCount = 0 ∧
    (globalStep config w (.cleanupVia i)).modState.isRunaway = false ∧
    (globalStep config w (.cleanupVia i)).modState =
      (globalStep config w (.cleanupVia j)).modState := by
  have hstep : ∀ k : ι, getEscapeCount (globalStep config w (.escapeVia k env)).modState =
      getEscapeCount w.modState + 1 := by
    intro k
    cases h : w.modState.isRunaway <;>
      simp [globalStep, handleEscape, escapeFromCursor, getEscapeCount, h]
  refine ⟨hstep i, by rw [hstep i, hstep j], ?_, ?_, ?_⟩ <;>
    simp [globalStep, cleanup]

/-- Witness for C10 at a concrete two-instance world. -/
theorem sharedCounter_across_instances_witness :
    getEscapeCount (globalStep (fun _ : Bool => DEFAULT_RUNAWAY_CONFIG)
        { modState := { escapeCount := 0, isRunaway := false },
          buttons := fun _ => sampleButtons }
        (.escapeVia false sampleEnv)).modState =
      getEscapeCount { escapeCount := 0, isRunaway := false } + 1 :=
  (sharedCounter_across_instances (fun _ : Bool => DEFAULT_RUNAWAY_CONFIG)
    { modState := { escapeCount := 0, isRunaway := false },
      buttons := fun _ => sampleButtons } false true sampleEnv).1

end Runaway

namespace Hearts

/-- Witness for C1 at a concrete input: with a ceiling of 0, a spawn request
on the empty container creates nothing. -/
theorem runEmitter_length_le_maxHearts_witness :
    createFloatingHeart { DEFAULT_CONFIG with maxHearts := 0 }
        { rEmoji := 0, rSize := 0, rDuration := 0, rLeft := 0, rDelay := 0 } [] = [] :=
  (runEmitter_length_le_maxHearts { DEFAULT_CONFIG with maxHearts := 0 } []).2 []
    { rEmoji := 0, rSize := 0, rDuration := 0, rLeft := 0, rDelay := 0 } (by decide)

end Hearts

namespace Celebration

/-- C6: when both screens exist, showCelebration removes the active marker
from the question screen immediately while the celebration screen is
untouched in the immediate phase; a single task is scheduled at 400 ms whose
ordered actions are: activate the celebration screen, fire the centered
50-heart burst, start the 3000 ms celebration loop, and last invoke the
callback when provided; running that task activates the celebration screen,
records exactly that burst and that loop, and invokes the callback.  When
either screen is missing, one error is logged and neither screen changes and
nothing is scheduled. -/
theorem showCelebration_spec (innerWidth innerHeight : ℚ) (hasCallback : Bool)
    (qid cid : String) (w : CelebrationWorld) :
    (∀ q c : Screen, w.questionScreen = some q → w.celebrationScreen = some c →
      (∃ q2 : Screen,
        (showCelebration innerWidth innerHeight hasCallback qid cid w).1.questionScreen =
          some q2 ∧ "active" ∉ q2.classes) ∧
      (showCelebration innerWidth innerHeight hasCallback qid cid w).1.celebrationScreen =
        w.celebrationScreen ∧
      (showCelebration innerWidth innerHeight hasCallback qid cid w).2 =
        some (400,
          [CelebAction.activateCelebration,
           CelebAction.burst (innerWidth / 2) (innerHeight / 2) 50,
           CelebAction.startLoop 3000]
          ++ if hasCallback then [CelebAction.invokeCallback] else []) ∧
      (∃ c2 : Screen,
        (runDelayed (showCelebration innerWidth innerHeight hasCallback qid cid w).1
          ([CelebAction.activateCelebration,
            CelebAction.burst (innerWidth / 2) (innerHeight / 2) 50,
            CelebAction.startLoop 3000]
           ++ if hasCallback then [CelebAction.invokeCallback] else [])).world.celebrationScreen =
          some c2 ∧ "active" ∈ c2.classes) ∧
      (runDelayed (showCelebration innerWidth innerHeight hasCallback qid cid w).1
          ([CelebAction.activateCelebration,
            CelebAction.burst (innerWidth / 2) (innerHeight / 2) 50,
            CelebAction.startLoop 3000]
           ++ if hasCallback then [CelebAction.invokeCallback] else [])).bursts =
        [(innerWidth / 2, innerHeight / 2, 50)] ∧
      (runDelayed (showCelebration innerWidth innerHeight hasCallback qid cid w).1
          ([CelebAction.activateCelebration,
            CelebAction.burst (innerWidth / 2) (innerHeight / 2) 50,
            CelebAction.startLoop 3000]
           ++ if hasCallback then [CelebAction.invokeCallback] else [])).loopsStarted =
        [3000] ∧
      (runDelayed (showCelebration innerWidth innerHeight hasCallback qid cid w).1
          ([CelebAction.activateCelebration,
            CelebAction.burst (innerWidth / 2) (innerHeight / 2) 50,
            CelebAction.startLoop 3000]
           ++ if hasCallback then [CelebAction.invokeCallback] else [])).callbackInvoked =
        hasCallback) ∧
    (w.questionScreen = none ∨ w.celebrationScreen = none →
      (showCelebration innerWidth innerHeight hasCallback qid cid w).1.questionScreen =
        w.questionScreen ∧
      (showCelebration innerWidth innerHeight hasCallback qid cid w).1.celebrationScreen =
        w.celebrationScreen ∧
      (showCelebration innerWidth innerHeight hasCallback qid cid w).2 = none ∧
      ∃ msg : String,
        (showCelebration innerWidth innerHeight hasCallback qid cid w).1.errorLog =
          w.errorLog ++ [msg]) := by
  constructor
  · intro q c hq hc
    refine ⟨⟨{ classes := Dom.removeClass q.classes "active" }, ?_, ?_⟩, ?_, ?_, ?_, ?_, ?_, ?_⟩
    · simp [showCelebration, hq, hc]
    · rw [Dom.mem_removeClass]
      simp
    · simp [showCelebration, hq, hc]
    · simp [showCelebration, hq, hc]
    · refine ⟨{ classes := Dom.addClass c.classes "active" }, ?_, ?_⟩
      · cases hasCallback <;>
          simp [showCelebration, hq, hc, runDelayed, applyCelebAction]
      · rw [Dom.mem_addClass]
        exact Or.inr rfl
    · cases hasCallback <;>
        simp [showCelebration, hq, hc, runDelayed, applyCelebAction]
    · cases hasCallback <;>
        simp [showCelebration, hq, hc, runDelayed, applyCelebAction]
    · cases hasCallback <;>
        simp [showCelebration, hq, hc, runDelayed, applyCelebAction]
  · intro h
    rcases h with h | h
    · refine ⟨?_, ?_, ?_, ⟨questionNotFoundMsg qid, ?_⟩⟩ <;> simp [showCelebration, h]
    · cases hq : w.questionScreen with
      | none =>
        refine ⟨?_, ?_, ?_, ⟨questionNotFoundMsg qid, ?_⟩⟩ <;> simp [showCelebration, hq]
      | some q =>
        refine ⟨?_, ?_, ?_, ⟨celebrationNotFoundMsg cid, ?_⟩⟩ <;>
          simp [showCelebration, hq, h]

/-- Witness for C6 at concrete worlds: with both screens present the 400 ms
task is scheduled with its four ordered actions, and with both screens
missing nothing is scheduled. -/
theorem showCelebration_spec_witness :
    (showCelebration 800 600 true "question-screen" "celebration-screen"
        { questionScreen := some { classes := ["active"] },
          celebrationScreen := some { classes := [] },
          errorLog := [] }).2 =
      some (400,
        [CelebAction.activateCelebration,
         CelebAction.burst 400 300 50,
         CelebAction.startLoop 3000,
         CelebAction.invokeCallback]) ∧
    (showCelebration 800 600 true "question-screen" "celebration-screen"
        { questionScreen := none, celebrationScreen := none, errorLog := [] }).2 =
      none := by
  constructor
  · have h := ((showCelebration_spec 800 600 true "question-screen" "celebration-screen"
      { questionScreen := some { classes := ["active"] },
        celebrationScreen := some { classes := [] },
        errorLog := [] }).1 { classes := ["active"] } { classes := [] } rfl rfl).2.2.1
    rw [h]
    norm_num
  · exact ((showCelebration_spec 800 600 true "question-screen" "celebration-screen"
      { questionScreen := none, celebrationScreen := none, errorLog := [] }).2
      (Or.inl rfl)).2.2.1

end Celebration

namespace Hearts

lemma createHeartBurst_getD (rands : ℕ → BurstRands) (fails : ℕ → Bool)
    (cx cy : ℝ) (count : ℕ) (i : ℕ) (hi : i < count) :
    (createHeartBurst rands fails cx cy count).getD i (0, none) =
      ((i : ℝ) * 50,
       if fails i then none else some (mkBurstHeart (rands i) cx cy)) := by
  have hlen : i < (createHeartBurst rands fails cx cy count).length := by
    simpa [createHeartBurst] using hi
  rw [List.getD_eq_getElem _ _ hlen]
  simp [createHeartBurst]

/-- C7: createHeartBurst schedules exactly count events at 50 ms stagger;
every event whose body does not throw creates a heart positioned at the
center, carrying a displacement vector of a random angle in [0, 2 pi) and a
random radial distance in [100, 400], removed after a fixed 3000 ms; the
entry produced for an index depends only on whether that index fails, so a
failing heart never affects the others; and the default count is 30. -/
theorem createHeartBurst_spec (rands : ℕ → BurstRands) (f g : ℕ → Bool)
    (cx cy : ℝ) (count : ℕ)
    (hr : ∀ i : ℕ, 0 ≤ (rands i).rAngle ∧ (rands i).rAngle < 1 ∧
      0 ≤ (rands i).rDistance ∧ (rands i).rDistance < 1) :
    (createHeartBurst rands f cx cy count).length = count ∧
    (∀ i : ℕ, i < count →
      ((createHeartBurst rands f cx cy count).getD i (0, none)).1 = (i : ℝ) * 50) ∧
    (∀ i : ℕ, i < count → f i = false →
      ∃ h : BurstHeart,
        ((createHeartBurst rands f cx cy count).getD i (0, none)).2 = some h ∧
        h.left = cx ∧ h.top = cy ∧ h.removalDelay = 3000 ∧
        ∃ angle distance : ℝ,
          0 ≤ angle ∧ angle < 2 * Real.pi ∧
          100 ≤ distance ∧ distance ≤ 400 ∧
          h.tx = Real.cos angle * distance ∧ h.ty = Real.sin angle * distance) ∧
    (∀ i : ℕ, i < count → f i = g i →
      (createHeartBurst rands f cx cy count).getD i (0, none) =
        (createHeartBurst rands g cx cy count).getD i (0, none)) ∧
    createHeartBurstDefault rands f cx cy = createHeartBurst rands f cx cy 30 := by
  refine ⟨by simp [createHeartBurst], ?_, ?_, ?_, rfl⟩
  · intro i hi
    rw [createHeartBurst_getD rands f cx cy count i hi]
  · intro i hi hf
    rw [createHeartBurst_getD rands f cx cy count i hi]
    refine ⟨mkBurstHeart (rands i) cx cy, by simp [hf], rfl, rfl, rfl, ?_⟩
    refine ⟨randomInRangeR (rands i).rAngle 0 (Real.pi * 2),
      randomInRangeR (rands i).rDistance 100 400, ?_, ?_, ?_, ?_, rfl, rfl⟩
    · have h1 := (hr i).1
      have hpi : (0 : ℝ) < Real.pi * 2 := by positivity
      simp only [randomInRangeR]
      nlinarith
    · have h2 := (hr i).2.1
      have hpi : (0 : ℝ) < Real.pi * 2 := by positivity
      simp only [randomInRangeR]
      nlinarith
    · have h3 := (hr i).2.2.1
      simp only [randomInRangeR]
      nlinarith
    · have h4 := (hr i).2.2.2
      simp only [randomInRangeR]
      nlinarith
  · intro i hi hfg
    rw [createHeartBurst_getD rands f cx cy count i hi,
      createHeartBurst_getD rands g cx cy count i hi, hfg]

/-- Witness for C7 at a concrete input: a two-heart burst with no failures
schedules exactly two events. -/
theorem createHeartBurst_spec_witness :
    (createHeartBurst (fun _ => sampleBurstRands) (fun _ => false) 0 0 2).length = 2 :=
  (createHeartBurst_spec (fun _ => sampleBurstRands) (fun _ => false) (fun _ => false)
    0 0 2 (by intro i; simp [sampleBurstRands]; norm_num)).1

end Hearts

/-- C8: each public entry point needing an element lookup, called when a
required element id is absent, logs exactly one error and returns without
raising: startFloatingHearts leaves every module field unchanged except for
the single appended log entry, initRunawayButton logs once, registers no
listener and returns a cleanup function that is a no-op on the module state,
and showCelebration leaves both screens unchanged, schedules nothing and
appends a single log entry. -/
theorem missingElement_logsOnce (containerId noId yesId qid cid : String)
    (doc : List String) (s : Hearts.EmitterState)
    (innerWidth innerHeight : ℚ) (hasCallback : Bool)
    (w : Celebration.CelebrationWorld) :
    (containerId ∉ doc →
      (Hearts.startFloatingHearts containerId doc s).errorLog =
        s.errorLog ++ [Hearts.containerNotFoundMsg containerId] ∧
      (Hearts.startFloatingHearts containerId doc s).heartIntervalId = s.heartIntervalId ∧
      (Hearts.startFloatingHearts containerId doc s).activeIntervals = s.activeIntervals ∧
      (Hearts.startFloatingHearts containerId doc s).scheduledSpawns = s.scheduledSpawns ∧
      (Hearts.startFloatingHearts containerId doc s).children = s.children) ∧
    (noId ∉ doc ∨ yesId ∉ doc →
      (Runaway.initRunawayButton noId yesId doc).errorLog.length = 1 ∧
      (Runaway.initRunawayButton noId yesId doc).cleanupFn = .noop ∧
      (Runaway.initRunawayButton noId yesId doc).listenersRegistered = [] ∧
      ∀ st : Runaway.ModuleState,
        Runaway.runCleanupKind (Runaway.initRunawayButton noId yesId doc).cleanupFn st = st) ∧
    (w.questionScreen = none ∨ w.celebrationScreen = none →
      (Celebration.showCelebration innerWidth innerHeight hasCallback qid cid w).1.questionScreen =
        w.questionScreen ∧
      (Celebration.showCelebration innerWidth innerHeight hasCallback qid cid w).1.celebrationScreen =
        w.celebrationScreen ∧
      (Celebration.showCelebration innerWidth innerHeight hasCallback qid cid w).2 = none ∧
      ∃ msg : String,
        (Celebration.showCelebration innerWidth innerHeight hasCallback qid cid w).1.errorLog =
          w.errorLog ++ [msg]) := by
  refine ⟨?_, ?_, ?_⟩
  · intro h
    refine ⟨?_, ?_, ?_, ?_, ?_⟩ <;> simp [Hearts.startFloatingHearts, h]
  · intro h
    by_cases hn : noId ∈ doc
    · have hy : yesId ∉ doc := by tauto
      refine ⟨?_, ?_, ?_, fun st => ?_⟩ <;>
        simp [Runaway.initRunawayButton, hn, hy, Runaway.runCleanupKind]
    · refine ⟨?_, ?_, ?_, fun st => ?_⟩ <;>
        simp [Runaway.initRunawayButton, hn, Runaway.runCleanupKind]
  · intro h
    rcases h with h | h
    · refine ⟨?_, ?_, ?_, ⟨Celebration.questionNotFoundMsg qid, ?_⟩⟩ <;>
        simp [Celebration.showCelebration, h]
    · cases hq : w.questionScreen with
      | none =>
        refine ⟨?_, ?_, ?_, ⟨Celebration.questionNotFoundMsg qid, ?_⟩⟩ <;>
          simp [Celebration.showCelebration, hq]
      | some q =>
        refine ⟨?_, ?_, ?_, ⟨Celebration.celebrationNotFoundMsg cid, ?_⟩⟩ <;>
          simp [Celebration.showCelebration, hq, h]

/-- Witness for C8 at concrete inputs: an empty document makes each entry
point log once and change nothing. -/
theorem missingElement_logsOnce_witness :
    (Hearts.startFloatingHearts "hearts-container" [] Hearts.sampleEmitterState).errorLog =
      [Hearts.containerNotFoundMsg "hearts-container"] ∧
    (Runaway.initRunawayButton "no-button" "yes-button" []).cleanupFn = .noop ∧
    (Celebration.showCelebration 800 600 false "question-screen" "celebration-screen"
        { questionScreen := none, celebrationScreen := none, errorLog := [] }).2 = none := by
  have h := missingElement_logsOnce "hearts-container" "no-button" "yes-button"
    "question-screen" "celebration-screen" [] Hearts.sampleEmitterState 800 600 false
    { questionScreen := none, celebrationScreen := none, errorLog := [] }
  refine ⟨?_, ?_, ?_⟩
  · have h1 := (h.1 (by simp)).1
    simpa [Hearts.sampleEmitterState] using h1
  · exact (h.2.1 (Or.inl (by simp))).2.1
  · exact (h.2.2 (Or.inl rfl)).2.2.1
